import Mathlib

/-!
Shallow embedding of the orchestration entry point of the wtfis repository
(src/wtfis/main.py): client selection (generate_entity_handler), view
selection (generate_view), the progress-event consumer loop (fetch_data)
and the top-level main sequence.  External collaborators (the provider
clients, the Config loader, the rich Progress display, the is_ip utility)
are modelled by their interfaces as used from main.py.
-/

namespace Wtfis

/-- Configuration record as read by main.py.  The loader itself
(wtfis/config.py) is not part of the embedded source; fields are those
main.py accesses.  Credentials that may be unset are `Option String`. -/
structure Config where
  entity : String
  vt_api_key : String
  ip2whois_api_key : Option String
  max_resolutions : Nat
  use_shodan : Bool
  use_greynoise : Bool
  use_abuseipdb : Bool
  use_urlhaus : Bool
  greynoise_api_key : Option String
  abuseipdb_api_key : Option String
  no_color : Bool
  one_column : Bool
deriving DecidableEq, Repr

/-- Python truthiness of an optional string: None and the empty string are
falsy; any other string is truthy.  Models the test
`if config.ip2whois_api_key` in main.py. -/
def pyTruthy : Option String → Bool
  | none => false
  | some s => s ≠ ""

/-- VirusTotal client (wtfis/clients/virustotal.py), identified by its key. -/
structure VTClient where
  api_key : String
deriving DecidableEq, Repr

/-- Free-tier IP geolocation/ASN client (wtfis/clients/ipwhois.py); takes
no credential. -/
inductive IpWhoisClient
  | mk
deriving DecidableEq, Repr

/-- Dedicated WHOIS client (wtfis/clients/ip2whois.py). -/
structure Ip2WhoisClient where
  api_key : Option String
deriving DecidableEq, Repr

/-- The WHOIS-capable client slot: `Union[Ip2WhoisClient, VTClient]`. -/
inductive WhoisClient
  | ip2whois (c : Ip2WhoisClient)
  | vt (c : VTClient)
deriving DecidableEq, Repr

/-- Shodan device/exposure client (wtfis/clients/shodan.py). -/
structure ShodanClient where
  api_key : String
deriving DecidableEq, Repr

/-- Greynoise traffic-noise client (wtfis/clients/greynoise.py). -/
structure GreynoiseClient where
  api_key : Option String
deriving DecidableEq, Repr

/-- AbuseIPDB abuse-report client (wtfis/clients/abuseipdb.py). -/
structure AbuseIpDbClient where
  api_key : Option String
deriving DecidableEq, Repr

/-- URLhaus malware-URL client (wtfis/clients/urlhaus.py); no credential. -/
inductive UrlHausClient
  | mk
deriving DecidableEq, Repr

/-- The full set of client references injected into a handler by
generate_entity_handler.  Optional clients are `Option`-valued: `none`
models the Python `None` passed when the feature flag is absent. -/
structure ClientSet where
  vt_client : VTClient
  ip_geoasn_client : IpWhoisClient
  whois_client : WhoisClient
  shodan_client : Option ShodanClient
  greynoise_client : Option GreynoiseClient
  abuseipdb_client : Option AbuseIpDbClient
  urlhaus_client : Option UrlHausClient
deriving DecidableEq, Repr

/-- Entity handler: the domain variant (wtfis/handlers/domain.py) carries
the max_resolutions bound; the IP variant (wtfis/handlers/ip.py) has no
resolutions field at all. -/
inductive BaseHandler
  | domainHandler (entity : String) (clients : ClientSet) (max_resolutions : Nat)
  | ipAddressHandler (entity : String) (clients : ClientSet)
deriving DecidableEq, Repr

/-- The client set carried by either handler variant. -/
def BaseHandler.clients : BaseHandler → ClientSet
  | .domainHandler _ cs _ => cs
  | .ipAddressHandler _ cs => cs

/-- Whether the handler is the IP-oriented variant. -/
def BaseHandler.isIpHandler : BaseHandler → Bool
  | .domainHandler _ _ _ => false
  | .ipAddressHandler _ _ => true

/-- A Python exception escaping generate_entity_handler: the only one
possible there is the KeyError from `os.environ["SHODAN_API_KEY"]`. -/
inductive PyError
  | keyError (key : String)
deriving DecidableEq, Repr

/-- Embedding of generate_entity_handler (src/wtfis/main.py lines 26-93).
`env` models `os.environ` lookup; `is_ip` models wtfis.utils.is_ip, an
external collaborator, so it is a parameter of the embedding. -/
def generate_entity_handler (env : String → Option String)
    (is_ip : String → Bool) (config : Config) : Except PyError BaseHandler :=
  let vt_client : VTClient := ⟨config.vt_api_key⟩
  let ip_geoasn_client : IpWhoisClient := .mk
  let whois_client : WhoisClient :=
    if pyTruthy config.ip2whois_api_key && !(is_ip config.entity) then
      .ip2whois ⟨config.ip2whois_api_key⟩
    else
      .vt vt_client
  match (if config.use_shodan then
           match env "SHODAN_API_KEY" with
           | some k => Except.ok (some (ShodanClient.mk k))
           | none => Except.error (PyError.keyError "SHODAN_API_KEY")
         else Except.ok none : Except PyError (Option ShodanClient)) with
  | .error e => .error e
  | .ok shodan_client =>
    let greynoise_client : Option GreynoiseClient :=
      if config.use_greynoise then some ⟨config.greynoise_api_key⟩ else none
    let abuseipdb_client : Option AbuseIpDbClient :=
      if config.use_abuseipdb then some ⟨config.abuseipdb_api_key⟩ else none
    let urlhaus_client : Option UrlHausClient :=
      if config.use_urlhaus then some .mk else none
    let clients : ClientSet :=
      ⟨vt_client, ip_geoasn_client, whois_client, shodan_client,
        greynoise_client, abuseipdb_client, urlhaus_client⟩
    if !(is_ip config.entity) then
      .ok (.domainHandler config.entity clients config.max_resolutions)
    else
      .ok (.ipAddressHandler config.entity clients)

/-- Shape of the handler's core (VirusTotal) result after the fetch pass:
a Domain model, an IpAddress model, or anything else (e.g. unset). -/
inductive VTInfo
  | domain
  | ip
  | other
deriving DecidableEq, Repr

/-- A rendering view (wtfis/ui/view.py): DomainView carries the
resolutions bound, IpAddressView does not. -/
inductive BaseView
  | domainView (vt : VTInfo) (max_resolutions : Nat)
  | ipAddressView (vt : VTInfo)
deriving DecidableEq, Repr

/-- WtfisException as raised by generate_view. -/
inductive WtfisError
  | wtfisException (msg : String)
deriving DecidableEq, Repr

/-- Embedding of generate_view (src/wtfis/main.py lines 96-129): the view
variant is picked by a runtime check of the handler type together with
the shape of its fetched vt_info; any other combination raises
WtfisException "Unsupported entity!". -/
def generate_view (config : Config) (entity : BaseHandler)
    (vt_info : VTInfo) : Except WtfisError BaseView :=
  match entity with
  | .domainHandler _ _ _ =>
    if vt_info = .domain then
      .ok (.domainView vt_info config.max_resolutions)
    else
      .error (.wtfisException "Unsupported entity!")
  | .ipAddressHandler _ _ =>
    if vt_info = .ip then
      .ok (.ipAddressView vt_info)
    else
      .error (.wtfisException "Unsupported entity!")

/-- A progress event yielded by the handler's fetch_data generator: a
(description, advance) tuple opens a new phase, a bare int advances the
currently open one.  Matches the `isinstance` dispatch in main.py. -/
inductive FetchEvent
  | phaseStart (descr : String) (adv : Int)
  | advance (n : Int)
deriving DecidableEq, Repr

/-- A rich progress task as main.py uses it: `add_task(descr)` leaves the
default expected total of 100; `update(task, advance=n)` adds to the
completed counter; `update(task, completed=100)` sets it. -/
structure RTask where
  description : String
  total : Int
  completed : Int
deriving DecidableEq, Repr

/-- State of the rich Progress display: the tasks created so far (a TaskID
is an index into this list), whether it was started and stopped, and a
ghost counter of how many force-completions `_finish_task` performed. -/
structure ProgressState where
  tasks : List RTask
  started : Bool
  stopped : Bool
  forced : Nat
deriving DecidableEq, Repr

/-- A fresh Progress display (ui/progress.get_progress). -/
def initProgress : ProgressState := ⟨[], false, false, 0⟩

/-- Apply a function to the task at the given index, as rich's update
does; out-of-range indices leave the list unchanged. -/
def listModify : List RTask → Nat → (RTask → RTask) → List RTask
  | [], _, _ => []
  | t :: ts, 0, f => f t :: ts
  | t :: ts, n + 1, f => t :: listModify ts n f

/-- `progress.add_task(descr)`: append a task with rich's default total of
100 and completed 0, returning the new TaskID. -/
def add_task (p : ProgressState) (descr : String) : ProgressState × Nat :=
  ({ p with tasks := p.tasks ++ [⟨descr, 100, 0⟩] }, p.tasks.length)

/-- `progress.update(task, advance=n)`. -/
def update_advance (p : ProgressState) (t : Nat) (n : Int) : ProgressState :=
  { p with tasks := listModify p.tasks t (fun tk => { tk with completed := tk.completed + n }) }

/-- `progress.update(task, completed=c)`. -/
def update_completed (p : ProgressState) (t : Nat) (c : Int) : ProgressState :=
  { p with tasks := listModify p.tasks t (fun tk => { tk with completed := c }) }

/-- The `_finish_task` closure of fetch_data: if a task is open, set its
completed counter to 100 (and count the force-completion in the ghost
field); otherwise do nothing. -/
def finishTask (p : ProgressState) (task : Option Nat) : ProgressState :=
  match task with
  | none => p
  | some t => { update_completed p t 100 with forced := p.forced + 1 }

/-- The body of fetch_data's for-loop, one event at a time: a tuple
finishes the open task, adds a new one and advances it by the tuple's
int; a bare int advances the open task and is dropped when none is
open. -/
def fetch_step : ProgressState × Option Nat → FetchEvent → ProgressState × Option Nat
  | (p, task), .phaseStart descr adv =>
    let p1 := finishTask p task
    let (p2, t) := add_task p1 descr
    (update_advance p2 t adv, some t)
  | (p, task), .advance n =>
    match task with
    | some t => (update_advance p t n, some t)
    | none => (p, none)

/-- Result of a fetch pass: the final display state and, when a
HandlerException aborted the pass, the message passed to error_and_exit
(which terminates the process with a non-success status). -/
structure FetchOutcome where
  progress : ProgressState
  exited : Option String
deriving DecidableEq, Repr

/-- Embedding of fetch_data (src/wtfis/main.py lines 132-155).  The
handler's generator is modelled by the list of events it yields followed
by an optional HandlerException message raised after them; the `with
progress` block starts the display on entry and stops it on exit, and
the except-branch stops it explicitly before error_and_exit. -/
def fetch_data (events : List FetchEvent) (err : Option String)
    (p0 : ProgressState) : FetchOutcome :=
  let ps := { p0 with started := true }
  let lp := List.foldl fetch_step (ps, none) events
  match err with
  | none =>
    { progress := { finishTask lp.1 lp.2 with stopped := true }, exited := none }
  | some msg =>
    { progress := { lp.1 with stopped := true }, exited := some msg }

/-- Behaviour of one handler run, standing in for the external handler
modules (wtfis/handlers/*): the progress events its generator yields, the
HandlerException it raises after them (if any), the warnings it
accumulated and the shape of its fetched core result. -/
structure HandlerRun where
  events : List FetchEvent
  err : Option String
  warnings : List String
  vt_info : VTInfo
deriving DecidableEq, Repr

/-- An observable step of main, in order of occurrence. -/
inductive Step
  | fetchCompleted
  | warningsPrinted (ws : List String)
  | viewConstructed
  | reportPrinted
deriving DecidableEq, Repr

/-- Outcome of a whole run of main: exit status, the fatal message if
any, the final progress display state, the view constructed (if any) and
the ordered trace of post-fetch steps. -/
structure MainOutcome where
  exitSuccess : Bool
  errMessage : Option String
  progress : ProgressState
  view : Option BaseView
  trace : List Step
deriving DecidableEq, Repr

/-- Embedding of main (src/wtfis/main.py lines 158-181): build the
handler, run the fetch pass (aborting with a non-success exit on a
HandlerException), print accumulated warnings, construct the view, print
the report, exit successfully.  An uncaught KeyError from handler
construction or WtfisException from view selection also ends the process
unsuccessfully. -/
def main (env : String → Option String) (is_ip : String → Bool)
    (config : Config) (run : HandlerRun) : MainOutcome :=
  match generate_entity_handler env is_ip config with
  | .error (.keyError k) =>
    { exitSuccess := false, errMessage := some ("KeyError: " ++ k),
      progress := initProgress, view := none, trace := [] }
  | .ok entity =>
    let fd := fetch_data run.events run.err initProgress
    match fd.exited with
    | some msg =>
      { exitSuccess := false, errMessage := some msg, progress := fd.progress,
        view := none, trace := [] }
    | none =>
      match generate_view config entity run.vt_info with
      | .error (.wtfisException m) =>
        { exitSuccess := false, errMessage := some m, progress := fd.progress,
          view := none, trace := [.fetchCompleted, .warningsPrinted run.warnings] }
      | .ok view =>
        { exitSuccess := true, errMessage := none, progress := fd.progress,
          view := some view,
          trace := [.fetchCompleted, .warningsPrinted run.warnings,
                    .viewConstructed, .reportPrinted] }

/-- Number of phase-start events in an event list: the number of phases a
fetch pass opens. -/
def countOpened (events : List FetchEvent) : Nat :=
  events.countP (fun e => match e with | .phaseStart _ _ => true | .advance _ => false)

/-- All tasks in the list have their completed counter at 100. -/
def allDone (l : List RTask) : Prop := ∀ t ∈ l, t.completed = 100

/-- Invariant of the fetch loop state: when no task is open every created
task has been force-completed; when one is open it is the most recently
created one and every earlier task has been force-completed. -/
def StateOK : ProgressState × Option Nat → Prop
  | (p, none) => allDone p.tasks
  | (p, some i) =>
      ∃ pre cur, p.tasks = pre ++ [cur] ∧ i = pre.length ∧ allDone pre

lemma listModify_length (l : List RTask) (i : Nat) (f : RTask → RTask) :
    (listModify l i f).length = l.length := by
  induction l generalizing i with
  | nil => rfl
  | cons t ts ih =>
    cases i with
    | zero => rfl
    | succ n => simp [listModify, ih]

lemma listModify_append (pre : List RTask) (c : RTask) (f : RTask → RTask) :
    listModify (pre ++ [c]) pre.length f = pre ++ [f c] := by
  induction pre with
  | nil => rfl
  | cons t ts ih => simp [listModify, ih]

lemma fetch_step_StateOK (s : ProgressState × Option Nat) (e : FetchEvent)
    (h : StateOK s) : StateOK (fetch_step s e) := by
  obtain ⟨p, task⟩ := s
  cases e with
  | phaseStart d a =>
    cases task with
    | none =>
      simp only [fetch_step, finishTask, add_task, update_advance]
      refine ⟨p.tasks, ⟨d, 100, 0 + a⟩, ?_, rfl, h⟩
      simp [listModify_append]
    | some i =>
      obtain ⟨pre, cur, hT, hi, hd⟩ := h
      simp only [fetch_step, finishTask, add_task, update_advance, update_completed]
      refine ⟨pre ++ [{ cur with completed := 100 }], ⟨d, 100, 0 + a⟩, ?_, ?_, ?_⟩
      · rw [hT, hi, listModify_append, listModify_append]
      · rw [hT, hi]
        simp [listModify_length]
      · intro t ht
        rcases List.mem_append.mp ht with h1 | h2
        · exact hd t h1
        · simp at h2
          rw [h2]
  | advance n =>
    cases task with
    | none => exact h
    | some i =>
      obtain ⟨pre, cur, hT, hi, hd⟩ := h
      simp only [fetch_step, update_advance]
      exact ⟨pre, { cur with completed := cur.completed + n },
        by rw [hT, hi, listModify_append], hi, hd⟩

lemma foldl_StateOK (events : List FetchEvent) :
    ∀ s, StateOK s → StateOK (List.foldl fetch_step s events) := by
  induction events with
  | nil => intro s h; exact h
  | cons e rest ih => intro s h; exact ih _ (fetch_step_StateOK s e h)

lemma fetch_step_forced (p : ProgressState) (task : Option Nat) (e : FetchEvent) :
    ((fetch_step (p, task) e).1).forced
      = p.forced + (match e, task with
                    | .phaseStart _ _, some _ => 1
                    | _, _ => 0) := by
  cases e <;> cases task <;>
    simp [fetch_step, finishTask, add_task, update_advance, update_completed]

lemma fetch_step_len (p : ProgressState) (task : Option Nat) (e : FetchEvent) :
    ((fetch_step (p, task) e).1).tasks.length
      = p.tasks.length + (match e with | .phaseStart _ _ => 1 | .advance _ => 0) := by
  cases e <;> cases task <;>
    simp [fetch_step, finishTask, add_task, update_advance, update_completed,
      listModify_length]

lemma fetch_step_snd (p : ProgressState) (task : Option Nat) (e : FetchEvent) :
    ((fetch_step (p, task) e).2).isSome
      = (task.isSome || (match e with | .phaseStart _ _ => true | .advance _ => false)) := by
  cases e <;> cases task <;>
    simp [fetch_step, finishTask, add_task, update_advance, update_completed]

lemma countOpened_cons (e : FetchEvent) (rest : List FetchEvent) :
    countOpened (e :: rest)
      = countOpened rest + (match e with | .phaseStart _ _ => 1 | .advance _ => 0) := by
  cases e <;> simp [countOpened, List.countP_cons]

lemma loop_forced (events : List FetchEvent) :
    ∀ (p : ProgressState) (task : Option Nat),
      ((List.foldl fetch_step (p, task) events).1).forced
        = p.forced
          + (if task.isSome then countOpened events else countOpened events - 1) := by
  induction events with
  | nil =>
    intro p task
    cases task <;> simp [countOpened]
  | cons e rest ih =>
    intro p task
    rw [List.foldl_cons]
    rcases hE : fetch_step (p, task) e with ⟨q, task2⟩
    have h1 := fetch_step_forced p task e
    have h2 := fetch_step_snd p task e
    rw [hE] at h1 h2
    simp only at h1 h2
    rw [show List.foldl fetch_step (q, task2) rest
          = List.foldl fetch_step (q, task2) rest from rfl]
    have ihq := ih q task2
    rw [ihq, h1, countOpened_cons]
    cases e <;> cases task <;> simp at h2 ⊢ <;> cases h3 : task2 <;>
      simp [h3] at h2 ⊢ <;> omega

lemma loop_len (events : List FetchEvent) :
    ∀ (p : ProgressState) (task : Option Nat),
      ((List.foldl fetch_step (p, task) events).1).tasks.length
        = p.tasks.length + countOpened events := by
  induction events with
  | nil => intro p task; simp [countOpened]
  | cons e rest ih =>
    intro p task
    rw [List.foldl_cons]
    rcases hE : fetch_step (p, task) e with ⟨q, task2⟩
    have h1 := fetch_step_len p task e
    rw [hE] at h1
    simp only at h1
    rw [ih q task2, h1, countOpened_cons]
    cases e <;> simp <;> omega

lemma loop_snd (events : List FetchEvent) :
    ∀ (p : ProgressState) (task : Option Nat),
      ((List.foldl fetch_step (p, task) events).2).isSome
        = (task.isSome || !(countOpened events == 0)) := by
  induction events with
  | nil => intro p task; simp [countOpened]
  | cons e rest ih =>
    intro p task
    rw [List.foldl_cons]
    rcases hE : fetch_step (p, task) e with ⟨q, task2⟩
    have h2 := fetch_step_snd p task e
    rw [hE] at h2
    simp only at h2
    rw [ih q task2, countOpened_cons]
    cases e <;> cases task <;> simp at h2 ⊢ <;> simp [h2] <;> omega

/-- Claim C3: in every fetch pass that runs to completion without a fatal
error, every opened phase is force-completed: the number of
force-completions equals the number of opened phases, every task created
by the pass ends with its completed counter set to 100, and the pass
does not exit with an error. -/
theorem claimC3 (events : List FetchEvent) :
    ((fetch_data events none initProgress).progress).forced = countOpened events
    ∧ ((fetch_data events none initProgress).progress).tasks.length = countOpened events
    ∧ (fetch_data events none initProgress).exited = none
    ∧ ∀ t ∈ ((fetch_data events none initProgress).progress).tasks,
        t.completed = 100 := by
  rcases hlp : List.foldl fetch_step
      ({ initProgress with started := true }, (none : Option Nat)) events with ⟨q, task⟩
  have hfd : fetch_data events none initProgress
      = { progress := { finishTask q task with stopped := true }, exited := none } := by
    simp only [fetch_data]
    rw [hlp]
  have hforced := loop_forced events { initProgress with started := true } none
  have hlen := loop_len events { initProgress with started := true } none
  have hsnd := loop_snd events { initProgress with started := true } none
  have hsok := foldl_StateOK events ({ initProgress with started := true }, none)
    (by simp [StateOK, allDone, initProgress])
  rw [hlp] at hforced hlen hsnd hsok
  simp only [initProgress, Option.isSome_none, Bool.false_eq_true, if_false,
    List.length_nil, Nat.zero_add] at hforced hlen
  rw [hfd]
  cases task with
  | none =>
    have hco : countOpened events = 0 := by
      simp at hsnd
      omega
    simp only [StateOK] at hsok
    refine ⟨?_, ?_, rfl, ?_⟩
    · simp [finishTask]
      omega
    · simp [finishTask]
      omega
    · intro t ht
      simp only [finishTask] at ht
      exact hsok t ht
  | some i =>
    have hco : countOpened events ≠ 0 := by
      simp at hsnd
      omega
    obtain ⟨pre, cur, hT, hi2, hd⟩ := hsok
    refine ⟨?_, ?_, rfl, ?_⟩
    · simp [finishTask]
      omega
    · simp [finishTask, update_completed, listModify_length]
      omega
    · intro t ht
      simp only [finishTask, update_completed] at ht
      rw [hT, hi2, listModify_append] at ht
      rcases List.mem_append.mp ht with h1 | h2
      · exact hd t h1
      · simp at h2
        rw [h2]

/-- Claim C9: a bare phase-progress event arriving while no phase is open
is silently discarded (the state is unchanged, nothing is opened, no
error occurs), and a HandlerException raised mid-fetch leaves the
currently open phase uncompleted: the error path performs one fewer
force-completion than the number of opened phases, stops the display and
exits with the error message. -/
theorem claimC9 :
    (∀ (p : ProgressState) (n : Int), fetch_step (p, none) (.advance n) = (p, none))
    ∧ ∀ (events : List FetchEvent) (msg : String),
        (fetch_data events (some msg) initProgress).exited = some msg
        ∧ ((fetch_data events (some msg) initProgress).progress).stopped = true
        ∧ ((fetch_data events (some msg) initProgress).progress).tasks.length
            = countOpened events
        ∧ ((fetch_data events (some msg) initProgress).progress).forced
            = countOpened events - 1 := by
  constructor
  · intro p n
    rfl
  · intro events msg
    rcases hlp : List.foldl fetch_step
        ({ initProgress with started := true }, (none : Option Nat)) events with ⟨q, task⟩
    have hfd : fetch_data events (some msg) initProgress
        = { progress := { q with stopped := true }, exited := some msg } := by
      simp only [fetch_data]
      rw [hlp]
    have hforced := loop_forced events { initProgress with started := true } none
    have hlen := loop_len events { initProgress with started := true } none
    rw [hlp] at hforced hlen
    simp only [initProgress, Option.isSome_none, Bool.false_eq_true, if_false,
      List.length_nil, Nat.zero_add] at hforced hlen
    rw [hfd]
    exact ⟨rfl, rfl, hlen, hforced⟩

/-- Claim C4 (amended): the integer carried by a phase-start tuple is
applied as an immediate advance to the newly opened task, whose expected
total stays at the display default of 100: processing the tuple appends
exactly the task (label, total 100, completed = weight) after finishing
the prior phase, and leaves it as the open task. -/
theorem claimC4_amended (p : ProgressState) (task : Option Nat) (d : String) (a : Int) :
    ((fetch_step (p, task) (.phaseStart d a)).1).tasks
      = (finishTask p task).tasks ++ [⟨d, 100, a⟩]
    ∧ (fetch_step (p, task) (.phaseStart d a)).2
      = some ((finishTask p task).tasks.length) := by
  constructor
  · simp only [fetch_step, add_task, update_advance]
    rw [listModify_append]
    simp
  · rfl

/-- Claim C4 counterexample: the weight of a phase-start event is not
used as the expected total of the new phase; with weight 30 the opened
task's total is rich's default 100, not 30. -/
theorem claimC4_counterexample :
    ¬ (((fetch_step (initProgress, none)
          (.phaseStart "Fetching data from Virustotal" 30)).1).tasks.map
        (fun t => t.total) = [(30 : Int)]) := by
  decide

lemma gen_ok_clients (env : String → Option String) (is_ip : String → Bool)
    (config : Config) (h : BaseHandler)
    (hok : generate_entity_handler env is_ip config = .ok h) :
    h.clients.vt_client = ⟨config.vt_api_key⟩
    ∧ h.clients.whois_client
        = (if pyTruthy config.ip2whois_api_key && !(is_ip config.entity)
           then .ip2whois ⟨config.ip2whois_api_key⟩ else .vt ⟨config.vt_api_key⟩)
    ∧ (h.clients.shodan_client).isSome = config.use_shodan
    ∧ h.clients.greynoise_client
        = (if config.use_greynoise then some ⟨config.greynoise_api_key⟩ else none)
    ∧ h.clients.abuseipdb_client
        = (if config.use_abuseipdb then some ⟨config.abuseipdb_api_key⟩ else none)
    ∧ h.clients.urlhaus_client = (if config.use_urlhaus then some .mk else none)
    ∧ (is_ip config.entity = false
        → h = .domainHandler config.entity h.clients config.max_resolutions)
    ∧ (is_ip config.entity = true
        → h = .ipAddressHandler config.entity h.clients) := by
  cases hs : config.use_shodan with
  | false =>
    cases hip : is_ip config.entity <;>
      simp [generate_entity_handler, hs, hip] at hok <;>
      subst hok <;>
      simp [BaseHandler.clients, BaseHandler.isIpHandler, hip]
  | true =>
    cases henv : env "SHODAN_API_KEY" with
    | none => simp [generate_entity_handler, hs, henv] at hok
    | some k =>
      cases hip : is_ip config.entity <;>
        simp [generate_entity_handler, hs, henv, hip] at hok <;>
        subst hok <;>
        simp [BaseHandler.clients, BaseHandler.isIpHandler, hip]

/-- Claim C1: a HandlerException raised by the handler's event sequence
stops the progress display, surfaces the message, makes the process exit
unsuccessfully, and no view is ever constructed or rendered. -/
theorem claimC1 (env : String → Option String) (is_ip : String → Bool)
    (config : Config) (run : HandlerRun) (h : BaseHandler) (msg : String)
    (hok : generate_entity_handler env is_ip config = .ok h)
    (herr : run.err = some msg) :
    (main env is_ip config run).exitSuccess = false
    ∧ (main env is_ip config run).errMessage = some msg
    ∧ ((main env is_ip config run).progress).stopped = true
    ∧ (main env is_ip config run).view = none
    ∧ (main env is_ip config run).trace = [] := by
  simp [main, hok, fetch_data, herr]

/-- Claim C10: with the device/exposure feature flag set but the
SHODAN_API_KEY variable absent from the environment, handler
construction raises an uncaught KeyError before any fetch begins: the
process fails with nothing fetched, no steps taken, no view built and
the progress display never touched. -/
theorem claimC10 (env : String → Option String) (is_ip : String → Bool)
    (config : Config) (run : HandlerRun)
    (hflag : config.use_shodan = true) (henv : env "SHODAN_API_KEY" = none) :
    generate_entity_handler env is_ip config = .error (.keyError "SHODAN_API_KEY")
    ∧ (main env is_ip config run).exitSuccess = false
    ∧ (main env is_ip config run).trace = []
    ∧ (main env is_ip config run).view = none
    ∧ (main env is_ip config run).progress = initProgress := by
  have hgen : generate_entity_handler env is_ip config
      = .error (.keyError "SHODAN_API_KEY") := by
    simp [generate_entity_handler, hflag, henv]
  refine ⟨hgen, ?_, ?_, ?_, ?_⟩ <;> simp [main, hgen]

/-- Claim C2: the WHOIS-capable client is the dedicated Ip2Whois client
exactly when the ip2whois credential is present (truthy) and the entity
is not an IP; in every other case it is the core VirusTotal client. -/
theorem claimC2 (env : String → Option String) (is_ip : String → Bool)
    (config : Config) (h : BaseHandler)
    (hok : generate_entity_handler env is_ip config = .ok h) :
    ((∃ c, h.clients.whois_client = .ip2whois c)
       ↔ (pyTruthy config.ip2whois_api_key = true ∧ is_ip config.entity = false))
    ∧ (¬ (pyTruthy config.ip2whois_api_key = true ∧ is_ip config.entity = false)
        → h.clients.whois_client = .vt ⟨config.vt_api_key⟩) := by
  obtain ⟨-, hw, -, -, -, -, -, -⟩ := gen_ok_clients env is_ip config h hok
  cases hcred : pyTruthy config.ip2whois_api_key <;>
    cases hip : is_ip config.entity <;>
    simp [hcred, hip] at hw <;>
    simp [hw, hcred, hip]

/-- Claim C5: generate_entity_handler builds the IP handler (which has no
resolutions field) exactly when the entity is classified as an IP, and
otherwise builds the domain handler carrying the configured
max_resolutions; the variant is fixed at construction. -/
theorem claimC5 (env : String → Option String) (is_ip : String → Bool)
    (config : Config) (h : BaseHandler)
    (hok : generate_entity_handler env is_ip config = .ok h) :
    (h.isIpHandler = true ↔ is_ip config.entity = true)
    ∧ (is_ip config.entity = false
        → h = .domainHandler config.entity h.clients config.max_resolutions)
    ∧ (is_ip config.entity = true
        → h = .ipAddressHandler config.entity h.clients) := by
  obtain ⟨-, -, -, -, -, -, hdom, hip2⟩ := gen_ok_clients env is_ip config h hok
  refine ⟨?_, hdom, hip2⟩
  cases hip : is_ip config.entity
  · rw [hdom hip]
    simp [BaseHandler.isIpHandler, hip]
  · rw [hip2 hip]
    simp [BaseHandler.isIpHandler, hip]

/-- Claim C6: each optional enrichment client is instantiated if and only
if its feature flag is set; with the flag absent the reference passed to
the handler is none, and (for the only flag whose construction can fail)
no error is raised when the flag is absent. -/
theorem claimC6 (env : String → Option String) (is_ip : String → Bool)
    (config : Config) :
    (config.use_shodan = false
      → ∀ e, generate_entity_handler env is_ip config ≠ .error e)
    ∧ ∀ h, generate_entity_handler env is_ip config = .ok h →
        ((h.clients.shodan_client).isSome = config.use_shodan
        ∧ (h.clients.greynoise_client).isSome = config.use_greynoise
        ∧ (h.clients.abuseipdb_client).isSome = config.use_abuseipdb
        ∧ (h.clients.urlhaus_client).isSome = config.use_urlhaus) := by
  constructor
  · intro hs e hcon
    cases hip : is_ip config.entity <;>
      simp [generate_entity_handler, hs, hip] at hcon
  · intro h hok
    obtain ⟨-, -, hsho, hg, ha, hu, -, -⟩ := gen_ok_clients env is_ip config h hok
    refine ⟨hsho, ?_, ?_, ?_⟩
    · cases hf : config.use_greynoise <;> simp [hg, hf]
    · cases hf : config.use_abuseipdb <;> simp [ha, hf]
    · cases hf : config.use_urlhaus <;> simp [hu, hf]

lemma main_view_error (env : String → Option String) (is_ip : String → Bool)
    (config : Config) (run : HandlerRun) (entity : BaseHandler)
    (hok : generate_entity_handler env is_ip config = .ok entity)
    (herr : run.err = none)
    (hbad : generate_view config entity run.vt_info
      = .error (.wtfisException "Unsupported entity!")) :
    (main env is_ip config run).view = none
    ∧ (main env is_ip config run).exitSuccess = false
    ∧ Step.reportPrinted ∉ (main env is_ip config run).trace := by
  simp [main, hok, fetch_data, herr, hbad]

/-- Claim C7: generate_view returns the domain view exactly when the
handler is the domain variant and the core result is domain-shaped, the
IP view exactly when the handler is the IP variant and the core result is
IP-shaped, and in every other combination raises the unsupported-entity
error, in which case main builds no view, prints no report and fails. -/
theorem claimC7 (config : Config) (entity : BaseHandler) (vt : VTInfo) :
    ((∃ mr, generate_view config entity vt = .ok (.domainView vt mr))
       ↔ (entity.isIpHandler = false ∧ vt = .domain))
    ∧ (generate_view config entity vt = .ok (.ipAddressView vt)
       ↔ (entity.isIpHandler = true ∧ vt = .ip))
    ∧ (¬ ((entity.isIpHandler = false ∧ vt = .domain)
          ∨ (entity.isIpHandler = true ∧ vt = .ip))
        → generate_view config entity vt
            = .error (.wtfisException "Unsupported entity!"))
    ∧ ∀ (env : String → Option String) (is_ip : String → Bool) (run : HandlerRun),
        generate_entity_handler env is_ip config = .ok entity →
        run.err = none → run.vt_info = vt →
        generate_view config entity vt = .error (.wtfisException "Unsupported entity!") →
        ((main env is_ip config run).view = none
         ∧ (main env is_ip config run).exitSuccess = false
         ∧ Step.reportPrinted ∉ (main env is_ip config run).trace) := by
  refine ⟨?_, ?_, ?_, ?_⟩
  · cases entity <;> cases vt <;> simp [generate_view, BaseHandler.isIpHandler]
  · cases entity <;> cases vt <;> simp [generate_view, BaseHandler.isIpHandler]
  · cases entity <;> cases vt <;> simp [generate_view, BaseHandler.isIpHandler]
  · intro env is_ip run hok herr hvt hbad
    exact main_view_error env is_ip config run entity hok herr (by rw [hvt]; exact hbad)

/-- Claim C8: on a successful run the steps occur in the fixed order
fetch-completed, warnings printed, view constructed, report printed; the
run exits successfully, and replacing the warning list never changes the
exit status. -/
theorem claimC8 (env : String → Option String) (is_ip : String → Bool)
    (config : Config) (run : HandlerRun) (entity : BaseHandler) (v : BaseView)
    (hok : generate_entity_handler env is_ip config = .ok entity)
    (herr : run.err = none)
    (hview : generate_view config entity run.vt_info = .ok v) :
    (main env is_ip config run).trace
      = [.fetchCompleted, .warningsPrinted run.warnings, .viewConstructed,
         .reportPrinted]
    ∧ (main env is_ip config run).exitSuccess = true
    ∧ (main env is_ip config run).errMessage = none
    ∧ (main env is_ip config run).view = some v
    ∧ ∀ ws, (main env is_ip config { run with warnings := ws }).exitSuccess = true := by
  refine ⟨?_, ?_, ?_, ?_, ?_⟩ <;>
    simp [main, hok, fetch_data, herr, hview]

/-- An environment with no variables set. -/
def env0 : String → Option String := fun _ => none

/-- An environment holding only a Shodan key. -/
def env6 : String → Option String :=
  fun k => if k == "SHODAN_API_KEY" then some "shodan-key" else none

/-- A concrete classifier recognising one IP literal. -/
def isip0 : String → Bool := fun s => s == "1.2.3.4"

/-- Domain-entity configuration with an ip2whois credential and no
optional flags. -/
def cfg0 : Config :=
  ⟨"example.com", "vt-key", some "ip2whois-key", 3,
    false, false, false, false, none, none, false, false⟩

/-- IP-entity configuration with shodan, greynoise and urlhaus enabled. -/
def cfg6 : Config :=
  ⟨"1.2.3.4", "vt-key", none, 3,
    true, true, false, true, some "gn-key", none, false, false⟩

/-- IP-entity configuration with the shodan flag set (for the missing
environment variable scenario). -/
def cfgA : Config :=
  ⟨"1.2.3.4", "vt-key", none, 3,
    true, false, false, false, none, none, false, false⟩

/-- The client set generate_entity_handler builds from cfg0. -/
def cs0 : ClientSet :=
  ⟨⟨"vt-key"⟩, .mk, .ip2whois ⟨some "ip2whois-key"⟩, none, none, none, none⟩

/-- The handler generate_entity_handler builds from cfg0. -/
def h0 : BaseHandler := .domainHandler "example.com" cs0 3

/-- The client set generate_entity_handler builds from cfg6 under env6. -/
def cs6 : ClientSet :=
  ⟨⟨"vt-key"⟩, .mk, .vt ⟨"vt-key"⟩, some ⟨"shodan-key"⟩, some ⟨some "gn-key"⟩,
    none, some .mk⟩

/-- The handler generate_entity_handler builds from cfg6 under env6. -/
def h6 : BaseHandler := .ipAddressHandler "1.2.3.4" cs6

/-- A handler run aborted by a HandlerException after one phase. -/
def run0 : HandlerRun :=
  ⟨[.phaseStart "Fetching data from Virustotal" 50, .advance 50],
    some "boom", [], .domain⟩

/-- A successful handler run with one warning and a domain-shaped core
result. -/
def run1 : HandlerRun :=
  ⟨[.phaseStart "Fetching data from Virustotal" 50], none, ["warn"], .domain⟩

/-- Event list exercising two phases for the C3 witness. -/
def ev3 : List FetchEvent :=
  [.phaseStart "Fetching data from Virustotal" 50, .advance 50,
   .phaseStart "Enriching with Shodan" 100]

/-- Witness for claim C1 at a concrete aborted run. -/
theorem claimC1_witness :
    (main env0 isip0 cfg0 run0).exitSuccess = false
    ∧ (main env0 isip0 cfg0 run0).errMessage = some "boom"
    ∧ ((main env0 isip0 cfg0 run0).progress).stopped = true
    ∧ (main env0 isip0 cfg0 run0).view = none
    ∧ (main env0 isip0 cfg0 run0).trace = [] :=
  claimC1 env0 isip0 cfg0 run0 h0 "boom" rfl rfl

/-- Witness for claim C2: with the credential present and a non-IP
entity the chosen WHOIS client is the dedicated one. -/
theorem claimC2_witness :
    ∃ c, h0.clients.whois_client = WhoisClient.ip2whois c :=
  (claimC2 env0 isip0 cfg0 h0 rfl).1.mpr (by decide)

/-- Witness for claim C3 at a concrete two-phase run: both phases are
force-completed and the first ends at 100. -/
theorem claimC3_witness :
    ((fetch_data ev3 none initProgress).progress).forced = countOpened ev3
    ∧ (RTask.mk "Fetching data from Virustotal" 100 100).completed = 100 :=
  ⟨(claimC3 ev3).1,
   (claimC3 ev3).2.2.2 ⟨"Fetching data from Virustotal", 100, 100⟩ (by decide)⟩

/-- Witness for claim C5: the non-IP entity of cfg0 yields the domain
handler carrying max_resolutions. -/
theorem claimC5_witness :
    h0 = BaseHandler.domainHandler cfg0.entity h0.clients cfg0.max_resolutions :=
  (claimC5 env0 isip0 cfg0 h0 rfl).2.1 (by decide)

/-- Witness for claim C6: under cfg6 the optional client references
match the four feature flags. -/
theorem claimC6_witness :
    (h6.clients.shodan_client).isSome = cfg6.use_shodan
    ∧ (h6.clients.greynoise_client).isSome = cfg6.use_greynoise
    ∧ (h6.clients.abuseipdb_client).isSome = cfg6.use_abuseipdb
    ∧ (h6.clients.urlhaus_client).isSome = cfg6.use_urlhaus :=
  (claimC6 env6 isip0 cfg6).2 h6 rfl

/-- Witness for claim C7: an IP handler paired with a domain-shaped core
result raises the unsupported-entity error. -/
theorem claimC7_witness :
    generate_view cfg0 h6 VTInfo.domain
      = Except.error (WtfisError.wtfisException "Unsupported entity!") :=
  (claimC7 cfg0 h6 VTInfo.domain).2.2.1 (by decide)

/-- Witness for claim C8 at a concrete successful run. -/
theorem claimC8_witness :
    (main env0 isip0 cfg0 run1).trace
      = [Step.fetchCompleted, Step.warningsPrinted ["warn"],
         Step.viewConstructed, Step.reportPrinted]
    ∧ (main env0 isip0 cfg0 run1).exitSuccess = true :=
  ⟨(claimC8 env0 isip0 cfg0 run1 h0 (BaseView.domainView .domain 3)
      rfl rfl rfl).1,
   (claimC8 env0 isip0 cfg0 run1 h0 (BaseView.domainView .domain 3)
      rfl rfl rfl).2.1⟩

/-- Witness for claim C10 at a concrete configuration with the shodan
flag set and an empty environment. -/
theorem claimC10_witness :
    generate_entity_handler env0 isip0 cfgA
      = Except.error (PyError.keyError "SHODAN_API_KEY")
    ∧ (main env0 isip0 cfgA run0).exitSuccess = false
    ∧ (main env0 isip0 cfgA run0).trace = []
    ∧ (main env0 isip0 cfgA run0).view = none
    ∧ (main env0 isip0 cfgA run0).progress = initProgress :=
  claimC10 env0 isip0 cfgA run0 rfl rfl

end Wtfis
